import Mathlib

/-!
Shallow embedding of `src/app.py` (Helena ↔ FACTA adapter).

The module translates the repository's two business endpoints
(`consulta_ofertas`, `formalizar`) and their helpers (`digits`,
`get_token`, the inline table selection of line 138) into executable
Lean definitions, and proves the specification claims about them.

Modelling conventions:
* JSON bodies are an inductive `Json`; JSON objects are association lists
  (Python's `json.loads` yields dicts; lookup takes the first binding).
* Each lender HTTP response is a `Response`: its content type, status code
  and the result of parsing its body as JSON (`none` = the body does not
  parse, so `r.json()` raises).
* Python numbers (JSON numbers and the result of `float(...)`) are modelled
  as exact rationals; double-precision rounding is not modelled.
* A raised `HTTPException` is mapped to the spec's error taxonomy (`Err`);
  any unhandled Python exception (JSON decode error, `AttributeError` from
  `.get` on a non-dict, `KeyError` from `[...]`, `float()` on a non-numeric
  value) is `Err.internal` — FastAPI turns these into a 500 response.
* Outbound HTTP calls are recorded in a trace (`Call`), carrying the query
  parameters / form fields that the code builds.  Python form-encodes every
  field with `str(...)`; the trace keeps the pre-encoding values, since no
  claim inspects the textual encoding of a number.
-/

/-- JSON values, as produced by `r.json()` in `httpx`. -/
inductive Json where
  | null
  | bool (b : Bool)
  | num (q : ℚ)
  | str (s : String)
  | arr (xs : List Json)
  | obj (kvs : List (String × Json))

/-- Lookup of a key in a JSON object (Python `dict` access); the first
binding wins. `none` models the key being absent. -/
def lookupKey (kvs : List (String × Json)) (k : String) : Option Json :=
  match kvs.find? (fun p => p.1 == k) with
  | some p => some p.2
  | none => none

/-- Python `d.get(k)`: the bound value, or `None` when the key is absent.
(A key bound to JSON `null` and an absent key both yield Python `None`.) -/
def jgetD (kvs : List (String × Json)) (k : String) : Json :=
  (lookupKey kvs k).getD Json.null

/-- Python `d.get(k, default)`. -/
def jgetDD (kvs : List (String × Json)) (k : String) (d : Json) : Json :=
  (lookupKey kvs k).getD d

/-- Python truthiness of a JSON value (`bool(x)`). -/
def Json.truthy : Json → Bool
  | .null => false
  | .bool b => b
  | .num q => decide (q ≠ 0)
  | .str s => !(s == "")
  | .arr xs => !xs.isEmpty
  | .obj kvs => !kvs.isEmpty

/-- Python `a or b`. -/
def pyOr (a b : Json) : Json :=
  if a.truthy then a else b

def Json.isArr : Json → Bool
  | .arr _ => true
  | _ => false

def Json.isObj : Json → Bool
  | .obj _ => true
  | _ => false

/-- Value of a digit character. -/
def digitVal (c : Char) : Nat := c.toNat - 48

/-- Natural number denoted by a digit string. -/
def digitsToNat (cs : List Char) : Nat :=
  cs.foldl (fun n c => 10 * n + digitVal c) 0

/-- Models Python `float(...)` applied to a decimal string: optional sign,
digits with at most one decimal point, at least one digit.  Exponents,
`inf`/`nan` and surrounding whitespace are not modelled (no claim uses
them). -/
def parseDecimal (s : String) : Option ℚ :=
  let (sign, rest) : ℚ × List Char :=
    match s.toList with
    | '-' :: r => (-1, r)
    | '+' :: r => (1, r)
    | r => (1, r)
  let intPart := rest.takeWhile Char.isDigit
  let rest2 := rest.dropWhile Char.isDigit
  match rest2 with
  | [] =>
      if intPart.isEmpty then none
      else some (sign * (digitsToNat intPart : ℚ))
  | '.' :: frac =>
      if frac.all Char.isDigit && !(intPart.isEmpty && frac.isEmpty) then
        some (sign * ((digitsToNat intPart : ℚ)
          + (digitsToNat frac : ℚ) / (10 : ℚ) ^ frac.length))
      else none
  | _ => none

/-- Models Python `float(x)` on a JSON value: numbers and booleans convert,
numeric strings parse, everything else (including `None`) raises. -/
def pyFloat : Json → Option ℚ
  | .num q => some q
  | .bool b => some (if b then 1 else 0)
  | .str s => parseDecimal s
  | _ => none

/-- `digits` from app.py line 16: `re.sub(r"\D", "", s or "")` — the
subsequence of digit characters of `s`, in original order. -/
def digits (s : String) : String :=
  String.mk (s.toList.filter Char.isDigit)

/-- Python `str.startswith(p)`: `p` is an initial segment of `s`.
(`String.startsWith` from core is compiled by well-founded recursion and
does not reduce definitionally, so the embedding uses a structural
equivalent.) -/
def strStarts (s p : String) : Bool :=
  p.toList.isPrefixOf s.toList

/-- A lender HTTP response as the adapter observes it: content type header,
status code, and the JSON parse of the body (`none` when `r.json()` would
raise). -/
structure Response where
  contentType : String
  status : Nat
  body : Option Json

/-- The spec's error taxonomy (§7), plus `internal` for unhandled Python
exceptions (which FastAPI surfaces as a 500, outside the taxonomy).
Mapping to app.py: `upstreamBlocked` = the 502 "retornou HTML (WAF)"
raises; `upstreamUnavailable` = the 502 "Token error" raise;
`upstreamProtocolError` = the 502 "Token vazio" / "Consulta error" raises;
`noEligibleTable` = the 400 "Sem tabela disponível" raise;
`stepFailed s j` = the 502 "Falha etapa1/2/3" raises, with the spec's step
names ("simulate"/"register"/"proposal") and the parsed body `j` that the
message embeds. -/
inductive Err where
  | upstreamBlocked
  | upstreamUnavailable
  | upstreamProtocolError
  | noEligibleTable
  | stepFailed (step : String) (body : Json)
  | internal

/-- The fixed login/certificate identifier (`LOGIN_CERTIFICADO`, default
environment value). -/
def LOGIN_CERT : String := "96676"

/-- `get_token` (app.py lines 19–32).  Checks the content type, then the
status code, then parses the body and extracts the `token` field.
A body that fails to parse, or parses to a non-dict (so that `j.get`
raises `AttributeError`), is an unhandled exception. -/
def get_token (r : Response) : Except Err Json :=
  if strStarts r.contentType "text/html" then
    .error .upstreamBlocked
  else if r.status ≠ 200 then
    .error .upstreamUnavailable
  else
    match r.body with
    | none => .error .internal
    | some (.obj kvs) =>
        let token := jgetD kvs "token"
        if token.truthy then .ok token
        else .error .upstreamProtocolError
    | some _ => .error .internal

/-- The lender endpoints the adapter calls. -/
inductive Endpoint where
  | geraToken
  | consultaOfertas
  | operacoesDisponiveis
  | etapa1Simulador
  | etapa2DadosPessoais
  | etapa3PropostaCadastro
  | envioLink
deriving DecidableEq, Repr

/-- One outbound lender call: the endpoint and the query parameters /
form fields the code sends to it. -/
structure Call where
  endpoint : Endpoint
  formData : List (String × Json)

/-- Input schema of `POST /consulta-ofertas` (`ConsultaIn`, app.py 35–43). -/
structure ConsultaIn where
  nome : String
  cpf : String
  data_nascimento : String
  meses_vinculo : Option Int
  renda : Option ℚ
  canal : Option String
  origem : Option String
  id_contato : Option String
  telefone : Option String

/-- One normalized offer, as built on app.py lines 114–115. -/
structure Offer where
  oferta : Json
  resposta : Json

/-- The success payload of `consulta_ofertas` (app.py line 116). -/
structure ConsultaOut where
  cpf : String
  total_ofertas : Nat
  ofertas : List Offer

/-- `j.get("dados") or j.get("ofertas") or []` (app.py line 110). -/
def extract_ofertas_raw (kvs : List (String × Json)) : Json :=
  pyOr (pyOr (jgetD kvs "dados") (jgetD kvs "ofertas")) (.arr [])

/-- The normalization of one raw offer entry (app.py 114–115); defined for
dict entries — a non-dict entry makes `d.get` raise. -/
def normOffer (kvs : List (String × Json)) : Offer :=
  { oferta := pyOr (jgetD kvs "oferta") (jgetD kvs "descricao")
    resposta := pyOr (jgetD kvs "resposta") (jgetD kvs "situacao") }

/-- The loop of app.py lines 112–115 over the raw entries; a non-dict entry
raises (`Err.internal`). -/
def mapNormalize : List Json → Except Err (List Offer)
  | [] => .ok []
  | .obj kvs :: ds => do
      let rest ← mapNormalize ds
      .ok (normOffer kvs :: rest)
  | _ :: _ => .error .internal

/-- `consulta_ofertas` (app.py lines 96–116), paired with the trace of the
outbound calls it makes.  `tokenResp` answers the `gera-token` call and
`offersResp` the `consulta-ofertas` call. -/
def consulta_ofertas (body : ConsultaIn) (tokenResp offersResp : Response) :
    Except Err ConsultaOut × List Call :=
  match get_token tokenResp with
  | .error e => (.error e, [⟨.geraToken, []⟩])
  | .ok _tk =>
    let cpf := digits body.cpf
    let tr : List Call :=
      [⟨.geraToken, []⟩, ⟨.consultaOfertas, [("cpf", .str cpf)]⟩]
    if strStarts offersResp.contentType "text/html" then
      (.error .upstreamBlocked, tr)
    else
      match offersResp.body with
      | none => (.error .upstreamProtocolError, tr)
      | some (.obj kvs) =>
          match extract_ofertas_raw kvs with
          | .arr ds =>
              match mapNormalize ds with
              | .error e => (.error e, tr)
              | .ok offers =>
                  (.ok ⟨cpf, offers.length, offers⟩, tr)
          | _ => (.ok ⟨cpf, 0, []⟩, tr)
      | some _ => (.error .internal, tr)

/-- Input schema of `POST /formalizar` (`FormalizarIn`, app.py 46–90). -/
structure FormalizarIn where
  cpf : String
  data_nascimento : String
  renda : ℚ
  sexo : String
  opcao_valor : Int
  valor_parcela : ℚ
  prazo : Int
  nome : String
  estado_civil : String
  rg : String
  estado_rg : String
  orgao_emissor : String
  data_expedicao : String
  estado_natural : String
  cidade_natural : String
  nacionalidade : String
  celular : String
  cep : String
  endereco : String
  numero : String
  bairro : String
  estado : String
  cidade : String
  nome_mae : String
  nome_pai : String
  valor_patrimonio : String
  cliente_iletrado_impossibilitado : String
  tipo_conta : String
  banco : String
  agencia : String
  conta : String
  tipo_chave_pix : String
  chave_pix : String
  matricula : String
  cnpj_empregador : String
  data_admissao : String

/-- `body.model_dump()` (app.py line 158): every input field, in
declaration order, as a key/value list. -/
def FormalizarIn.dump (b : FormalizarIn) : List (String × Json) :=
  [("cpf", .str b.cpf),
   ("data_nascimento", .str b.data_nascimento),
   ("renda", .num b.renda),
   ("sexo", .str b.sexo),
   ("opcao_valor", .num b.opcao_valor),
   ("valor_parcela", .num b.valor_parcela),
   ("prazo", .num b.prazo),
   ("nome", .str b.nome),
   ("estado_civil", .str b.estado_civil),
   ("rg", .str b.rg),
   ("estado_rg", .str b.estado_rg),
   ("orgao_emissor", .str b.orgao_emissor),
   ("data_expedicao", .str b.data_expedicao),
   ("estado_natural", .str b.estado_natural),
   ("cidade_natural", .str b.cidade_natural),
   ("nacionalidade", .str b.nacionalidade),
   ("celular", .str b.celular),
   ("cep", .str b.cep),
   ("endereco", .str b.endereco),
   ("numero", .str b.numero),
   ("bairro", .str b.bairro),
   ("estado", .str b.estado),
   ("cidade", .str b.cidade),
   ("nome_mae", .str b.nome_mae),
   ("nome_pai", .str b.nome_pai),
   ("valor_patrimonio", .str b.valor_patrimonio),
   ("cliente_iletrado_impossibilitado", .str b.cliente_iletrado_impossibilitado),
   ("tipo_conta", .str b.tipo_conta),
   ("banco", .str b.banco),
   ("agencia", .str b.agencia),
   ("conta", .str b.conta),
   ("tipo_chave_pix", .str b.tipo_chave_pix),
   ("chave_pix", .str b.chave_pix),
   ("matricula", .str b.matricula),
   ("cnpj_empregador", .str b.cnpj_empregador),
   ("data_admissao", .str b.data_admissao)]

/-- Query parameters of the `operacoes-disponiveis` call
(app.py lines 126–134). -/
def opsParams (cpf : String) (body : FormalizarIn) : List (String × Json) :=
  [("produto", .str "D"), ("tipo_operacao", .str "13"),
   ("averbador", .str "10010"), ("convenio", .str "3"),
   ("opcao_valor", .num body.opcao_valor),
   ("valor_parcela", .num body.valor_parcela),
   ("prazo", .num body.prazo),
   ("cpf", .str cpf),
   ("data_nascimento", .str body.data_nascimento),
   ("valor_renda", .num body.renda)]

/-- The sort key of app.py line 138: `float(x.get("valor_liquido", 0))`.
`none` models the key computation raising: a non-dict candidate
(`AttributeError`) or a `valor_liquido` value `float` rejects. -/
def tableKey : Json → Option ℚ
  | .obj kvs => pyFloat (jgetDD kvs "valor_liquido" (.num 0))
  | _ => none

/-- The sort key with default 0; coincides with the real key whenever the
key computation does not raise. -/
def keyD (d : Json) : ℚ := (tableKey d).getD 0

/-- First element of `a :: l` attaining the maximal key: the head of a
stable descending sort (Python's `sorted(..., reverse=True)` keeps equal
keys in input order, so the head is the first maximal element). -/
def firstMaxBy (key : Json → ℚ) : Json → List Json → Json
  | a, [] => a
  | a, x :: xs => if key a < key x then firstMaxBy key x xs else firstMaxBy key a xs

/-- `sorted(t, key=lambda x: float(x.get("valor_liquido", 0)), reverse=True)[0]`
(app.py line 138).  Python evaluates the key for every element before
sorting, raising if any `float(...)` fails; `sorted([])[0]` raises
`IndexError`.  Both raises are `Err.internal`. -/
def selectTable (ds : List Json) : Except Err Json :=
  if ds.all (fun d => (tableKey d).isSome) then
    match ds with
    | [] => .error .internal
    | a :: l => .ok (firstMaxBy keyD a l)
  else .error .internal

/-- The `fd1` form fields of the `etapa1-simulador` call (app.py 141–150),
given the values the code reads out of the selected table. -/
def fd1List (cpf : String) (body : FormalizarIn) (codigoTabela prazoTab : Json)
    (kvs : List (String × Json)) : List (String × Json) :=
  [("produto", .str "D"), ("tipo_operacao", .str "13"),
   ("averbador", .str "10010"), ("convenio", .str "3"),
   ("cpf", .str cpf),
   ("data_nascimento", .str body.data_nascimento),
   ("login_certificado", .str LOGIN_CERT),
   ("codigo_tabela", codigoTabela),
   ("prazo", prazoTab),
   ("valor_operacao", jgetDD kvs "contrato" (jgetDD kvs "valor_liquido" (.num 0))),
   ("valor_parcela", jgetDD kvs "parcela" (.num 0)),
   ("coeficiente", jgetD kvs "coeficiente")]

/-- Builds `fd1` (app.py 141–150).  `best["codigoTabela"]` and
`best["prazo"]` are direct indexing: a missing key raises `KeyError`
(`none`); the other table fields are read with `.get` and tolerate
absence. -/
def buildFd1 (cpf : String) (body : FormalizarIn) (best : Json) :
    Option (List (String × Json)) :=
  match best with
  | .obj kvs =>
      match lookupKey kvs "codigoTabela", lookupKey kvs "prazo" with
      | some ct, some pz => some (fd1List cpf body ct pz kvs)
      | _, _ => none
  | _ => none

/-- The `fd2` form fields of the `etapa2-dados-pessoais` call (app.py
158–159): the full dump, with the `cpf` entry overwritten in place by the
canonical cpf and `id_simulador` appended (Python `dict.update` keeps the
position of an existing key and appends new keys). -/
def fd2List (body : FormalizarIn) (cpf : String) (id_sim : Json) :
    List (String × Json) :=
  (body.dump.map (fun p => if p.1 = "cpf" then (p.1, Json.str cpf) else p))
    ++ [("id_simulador", id_sim)]

/-- The lender responses one `formalizar` run observes, one per outbound
call in order.  `linkResp` answers the final `envio-link` call; the code
never reads it (app.py line 177 ignores the result). -/
structure FormEnv where
  tokenResp : Response
  opsResp : Response
  simResp : Response
  regResp : Response
  propResp : Response
  linkResp : Response

/-- The success payload of `formalizar` (app.py line 179). -/
structure FormalizarOut where
  codigo : Json
  url_formalizacao : Json

/-- The body of `formalizar` (app.py lines 118–179) over the five lender
responses it actually reads, paired with the trace of outbound lender
calls.  Linear chain: token → operacoes-disponiveis → table selection →
etapa1 → etapa2 → etapa3 → envio-link, each step validated before the
next (except envio-link, whose response is ignored). -/
def formalizarCore (body : FormalizarIn)
    (tokenResp opsResp simResp regResp propResp : Response) :
    Except Err FormalizarOut × List Call :=
  match get_token tokenResp with
  | .error e => (.error e, [⟨.geraToken, []⟩])
  | .ok _tk =>
    let cpf := digits body.cpf
    let tr1 : List Call :=
      [⟨.geraToken, []⟩, ⟨.operacoesDisponiveis, opsParams cpf body⟩]
    match opsResp.body with
    | none => (.error .internal, tr1)
    | some (.obj kvs1) =>
      let t := jgetDD kvs1 "tabelas" (.arr [])
      if t.truthy then
        match t with
        | .arr ds =>
          match selectTable ds with
          | .error e => (.error e, tr1)
          | .ok best =>
            match best with
            | .obj kvsB =>
              match lookupKey kvsB "codigoTabela", lookupKey kvsB "prazo" with
              | some ct, some pz =>
                let fd1 := fd1List cpf body ct pz kvsB
                let tr2 := tr1 ++ [⟨.etapa1Simulador, fd1⟩]
                match simResp.body with
                | none => (.error .internal, tr2)
                | some (.obj kvs2) =>
                  let id_sim := jgetD kvs2 "id_simulador"
                  if id_sim.truthy then
                    let tr3 := tr2 ++ [⟨.etapa2DadosPessoais, fd2List body cpf id_sim⟩]
                    match regResp.body with
                    | none => (.error .internal, tr3)
                    | some (.obj kvs3) =>
                      let codigo_cliente := jgetD kvs3 "codigo_cliente"
                      if codigo_cliente.truthy then
                        let fd3 : List (String × Json) :=
                          [("codigo_cliente", codigo_cliente),
                           ("id_simulador", id_sim),
                           ("tipo_formalizacao", Json.str "DIG")]
                        let tr4 := tr3 ++ [⟨.etapa3PropostaCadastro, fd3⟩]
                        match propResp.body with
                        | none => (.error .internal, tr4)
                        | some (.obj kvs4) =>
                          let codigo := jgetD kvs4 "codigo"
                          let url_form := jgetD kvs4 "url_formalizacao"
                          if codigo.truthy then
                            let tr5 := tr4 ++
                              [⟨.envioLink,
                                [("codigo_af", codigo),
                                 ("tipo_envio", Json.str "Whatsapp")]⟩]
                            (.ok ⟨codigo, url_form⟩, tr5)
                          else (.error (.stepFailed "proposal" (.obj kvs4)), tr4)
                        | some _ => (.error .internal, tr4)
                      else (.error (.stepFailed "register" (.obj kvs3)), tr3)
                    | some _ => (.error .internal, tr3)
                  else (.error (.stepFailed "simulate" (.obj kvs2)), tr2)
                | some _ => (.error .internal, tr2)
              | _, _ => (.error .internal, tr1)
            | _ => (.error .internal, tr1)
        | _ => (.error .internal, tr1)
      else (.error .noEligibleTable, tr1)
    | some _ => (.error .internal, tr1)

/-- `formalizar` (app.py lines 118–179): the endpoint over a full response
environment.  `env.linkResp` is not passed to the core — the code never
reads the `envio-link` response. -/
def formalizar (body : FormalizarIn) (env : FormEnv) :
    Except Err FormalizarOut × List Call :=
  formalizarCore body env.tokenResp env.opsResp env.simResp env.regResp env.propResp

/-! ### Concrete inputs used by witnesses and counterexamples -/

/-- A well-formed token response. -/
def tokOK : Response := ⟨"application/json", 200, some (.obj [("token", .str "t")])⟩

def tbl1 : Json :=
  .obj [("codigoTabela", .num 1), ("prazo", .num 12), ("valor_liquido", .num 1000)]

def tbl2 : Json :=
  .obj [("codigoTabela", .num 2), ("prazo", .num 24), ("valor_liquido", .num 1500)]

/-- A concrete `POST /formalizar` input. -/
def exBody : FormalizarIn :=
  ⟨"123.456.789-09", "01/01/1990", 3000, "M", 1, 500, 24, "Ana", "solteira",
   "123", "SP", "SSP", "01/01/2010", "SP", "Campinas", "brasileira",
   "11999990000", "01001000", "Rua A", "1", "Centro", "SP", "Campinas",
   "Maria", "Jose", "0", "N", "corrente", "001", "0001", "123", "cpf",
   "11999990000", "m1", "12345678000100", "01/01/2020"⟩

/-- A concrete `POST /consulta-ofertas` input. -/
def exConsulta : ConsultaIn :=
  ⟨"Ana", "123.456.789-09", "01/01/1990", none, some 3000, some "chatbot",
   some "helena", none, none⟩

/-- An environment in which every formalization step succeeds. -/
def envOK : FormEnv :=
  { tokenResp := tokOK
    opsResp := ⟨"application/json", 200, some (.obj [("tabelas", .arr [tbl1, tbl2])])⟩
    simResp := ⟨"application/json", 200, some (.obj [("id_simulador", .str "s1")])⟩
    regResp := ⟨"application/json", 200, some (.obj [("codigo_cliente", .str "c1")])⟩
    propResp := ⟨"application/json", 200,
      some (.obj [("codigo", .str "af1"), ("url_formalizacao", .str "https://u")])⟩
    linkResp := ⟨"application/json", 200, some (.obj [])⟩ }

/-- Like `envOK`, but the register step's response has no `codigo_cliente`. -/
def envC3 : FormEnv :=
  { envOK with regResp := ⟨"application/json", 200, some (.obj [])⟩ }

/-- Like `envOK`, but the available-operations response has an empty table
list. -/
def envC4 : FormEnv :=
  { envOK with opsResp := ⟨"application/json", 200, some (.obj [("tabelas", .arr [])])⟩ }

/-- Like `envOK`, but the available-operations call is answered by an HTML
page (a network-edge block), which does not parse as JSON. -/
def envHtmlOps : FormEnv :=
  { envOK with opsResp := ⟨"text/html; charset=utf-8", 200, none⟩ }

/-- Like `envOK`, but the single table lacks the `codigoTabela` key. -/
def envC10 : FormEnv :=
  { envOK with opsResp := ⟨"application/json", 200,
      some (.obj [("tabelas", .arr [.obj [("prazo", .num 12), ("valor_liquido", .num 1000)]])])⟩ }

/-- Offer response of end-to-end scenario A. -/
def offA : Response :=
  ⟨"application/json", 200,
   some (.obj [("dados", .arr [.obj [("descricao", .str "Refin"), ("situacao", .str "Aprovado")]])])⟩

/-- An offer-lookup response whose body parses to a JSON array. -/
def offArr : Response := ⟨"application/json", 200, some (.arr [])⟩

/-- An offer-lookup response whose `dados` field is a non-collection. -/
def offScalar : Response :=
  ⟨"application/json", 200, some (.obj [("dados", .num 5)])⟩

/-- A failing response for the `envio-link` call. -/
def linkFail : Response := ⟨"text/html; charset=utf-8", 503, none⟩

/-- An HTML (network-edge block) response; it does not parse as JSON. -/
def htmlResp : Response := ⟨"text/html; charset=utf-8", 200, none⟩

/-- Like `envOK`, but the simulate step is answered by an HTML page. -/
def envHtmlSim : FormEnv := { envOK with simResp := htmlResp }

/-- Like `envOK`, but the register step is answered by an HTML page. -/
def envHtmlReg : FormEnv := { envOK with regResp := htmlResp }

/-- Like `envOK`, but the create-proposal step is answered by an HTML
page. -/
def envHtmlProp : FormEnv := { envOK with propResp := htmlResp }

/-- All `cpf` form fields of a call carry the canonical (digits-only)
cpf. -/
def cpfOK (cpf : String) (c : Call) : Prop :=
  ∀ v, ("cpf", v) ∈ c.formData → v = Json.str cpf

/-! ### Helper lemmas -/

theorem firstMaxBy_ub (key : Json → ℚ) (l : List Json) :
    ∀ a y : Json, y = a ∨ y ∈ l → key y ≤ key (firstMaxBy key a l) := by
  induction l with
  | nil =>
      intro a y hy
      rcases hy with rfl | h
      · exact le_rfl
      · exact absurd h (List.not_mem_nil y)
  | cons x xs ih =>
      intro a y hy
      by_cases h : key a < key x
      · simp only [firstMaxBy, if_pos h]
        rcases hy with rfl | hm
        · exact le_trans (le_of_lt h) (ih x x (Or.inl rfl))
        · rcases List.mem_cons.mp hm with rfl | hm2
          · exact ih y y (Or.inl rfl)
          · exact ih x y (Or.inr hm2)
      · simp only [firstMaxBy, if_neg h]
        rcases hy with rfl | hm
        · exact ih y y (Or.inl rfl)
        · rcases List.mem_cons.mp hm with rfl | hm2
          · exact le_trans (not_lt.mp h) (ih a a (Or.inl rfl))
          · exact ih a y (Or.inr hm2)

theorem firstMaxBy_split (key : Json → ℚ) (l : List Json) :
    ∀ a : Json, ∃ l1 l2, a :: l = l1 ++ firstMaxBy key a l :: l2 ∧
      ∀ y ∈ l1, key y < key (firstMaxBy key a l) := by
  induction l with
  | nil =>
      intro a
      exact ⟨[], [], rfl, by simp⟩
  | cons x xs ih =>
      intro a
      by_cases h : key a < key x
      · obtain ⟨l1, l2, heq, hlt⟩ := ih x
        refine ⟨a :: l1, l2, ?_, ?_⟩
        · simp only [firstMaxBy, if_pos h, List.cons_append]
          exact congrArg (a :: ·) heq
        · intro y hy
          simp only [firstMaxBy, if_pos h]
          rcases List.mem_cons.mp hy with rfl | hm
          · exact lt_of_lt_of_le h (firstMaxBy_ub key xs x x (Or.inl rfl))
          · exact hlt y hm
      · obtain ⟨l1, l2, heq, hlt⟩ := ih a
        cases l1 with
        | nil =>
            rw [List.nil_append] at heq
            injection heq with h1 h2
            refine ⟨[], x :: xs, ?_, by simp⟩
            simp only [firstMaxBy, if_neg h, List.nil_append]
            rw [← h1]
        | cons c l1t =>
            rw [List.cons_append] at heq
            injection heq with hc hxs
            refine ⟨a :: x :: l1t, l2, ?_, ?_⟩
            · simp only [firstMaxBy, if_neg h, List.cons_append]
              exact congrArg (fun t => a :: x :: t) hxs
            · intro y hy
              simp only [firstMaxBy, if_neg h]
              have hmem : a ∈ c :: l1t := by
                rw [hc]; exact List.mem_cons_self c l1t
              rcases List.mem_cons.mp hy with h1 | hm
              · rw [h1]; exact hlt a hmem
              · rcases List.mem_cons.mp hm with h2 | hm2
                · rw [h2]
                  exact lt_of_le_of_lt (not_lt.mp h) (hlt a hmem)
                · exact hlt y (List.mem_cons_of_mem c hm2)

theorem opsParams_cpf (cpf : String) (body : FormalizarIn) (v : Json)
    (h : ("cpf", v) ∈ opsParams cpf body) : v = .str cpf := by
  simp only [opsParams, List.mem_cons, List.not_mem_nil, or_false,
    Prod.mk.injEq] at h
  rcases h with h | h | h | h | h | h | h | h | h | h <;>
    first
      | exact h.2
      | exact absurd h.1 (by decide)

theorem fd1List_cpf (cpf : String) (body : FormalizarIn) (ct pz : Json)
    (kvs : List (String × Json)) (v : Json)
    (h : ("cpf", v) ∈ fd1List cpf body ct pz kvs) : v = .str cpf := by
  simp only [fd1List, List.mem_cons, List.not_mem_nil, or_false,
    Prod.mk.injEq] at h
  rcases h with h | h | h | h | h | h | h | h | h | h | h | h <;>
    first
      | exact h.2
      | exact absurd h.1 (by decide)

theorem fd2List_cpf (body : FormalizarIn) (cpf : String) (id_sim v : Json)
    (h : ("cpf", v) ∈ fd2List body cpf id_sim) : v = .str cpf := by
  simp only [fd2List, List.mem_append, List.mem_map, List.mem_singleton] at h
  rcases h with ⟨p, _, hpe⟩ | h
  · by_cases hk : p.1 = "cpf"
    · rw [if_pos hk] at hpe
      have h2 : Json.str cpf = v := congrArg Prod.snd hpe
      exact h2.symm
    · rw [if_neg hk] at hpe
      exact absurd (congrArg Prod.fst hpe) hk
  · have h2 := congrArg Prod.fst h
    simp at h2

theorem fd3_cpf (codigo_cliente id_sim v : Json)
    (h : ("cpf", v) ∈ [("codigo_cliente", codigo_cliente),
      ("id_simulador", id_sim), ("tipo_formalizacao", Json.str "DIG")]) :
    v = .str "unreachable" := by
  simp only [List.mem_cons, List.not_mem_nil, or_false, Prod.mk.injEq] at h
  rcases h with h | h | h <;> exact absurd h.1 (by decide)

theorem buildFd1_some_inv (cpf : String) (body : FormalizarIn) (best : Json)
    (fd1 : List (String × Json)) (h : buildFd1 cpf body best = some fd1) :
    ∃ kvsB ct pz, best = .obj kvsB ∧ lookupKey kvsB "codigoTabela" = some ct ∧
      lookupKey kvsB "prazo" = some pz ∧ fd1 = fd1List cpf body ct pz kvsB := by
  cases best with
  | obj kvsB =>
      simp only [buildFd1] at h
      cases hct : lookupKey kvsB "codigoTabela" with
      | none => rw [hct] at h; simp at h
      | some ct =>
          cases hpz : lookupKey kvsB "prazo" with
          | none => rw [hct, hpz] at h; simp at h
          | some pz =>
              rw [hct, hpz] at h
              simp only [Option.some.injEq] at h
              exact ⟨kvsB, ct, pz, rfl, hct, hpz, h.symm⟩
  | null => simp [buildFd1] at h
  | bool b => simp [buildFd1] at h
  | num q => simp [buildFd1] at h
  | str s2 => simp [buildFd1] at h
  | arr xs => simp [buildFd1] at h

theorem mapNormalize_ok (ds : List Json) (h : ∀ d ∈ ds, d.isObj = true) :
    ∃ offers, mapNormalize ds = .ok offers := by
  induction ds with
  | nil => exact ⟨[], rfl⟩
  | cons d ds ih =>
      obtain ⟨offers, hoff⟩ := ih (fun x hx => h x (List.mem_cons_of_mem d hx))
      have hd := h d (List.mem_cons_self d ds)
      cases d with
      | obj kvs =>
          refine ⟨normOffer kvs :: offers, ?_⟩
          simp only [mapNormalize, hoff]
          rfl
      | null => exact absurd hd (by simp [Json.isObj])
      | bool b => exact absurd hd (by simp [Json.isObj])
      | num q => exact absurd hd (by simp [Json.isObj])
      | str s => exact absurd hd (by simp [Json.isObj])
      | arr xs => exact absurd hd (by simp [Json.isObj])

/-- `formalizar` never reads the response of the final `envio-link` call
(app.py line 177 discards it). -/
theorem formalizar_ignores_linkResp (body : FormalizarIn) (env : FormEnv)
    (r : Response) :
    formalizar body { env with linkResp := r } = formalizar body env := by
  cases env
  rfl

theorem cpfOK_geraToken (cpf : String) : cpfOK cpf ⟨.geraToken, []⟩ := by
  intro v hv
  simp at hv

theorem cpfOK_ops (cpf : String) (body : FormalizarIn) :
    cpfOK cpf ⟨.operacoesDisponiveis, opsParams cpf body⟩ :=
  fun v hv => opsParams_cpf cpf body v hv

theorem cpfOK_fd1 (cpf : String) (body : FormalizarIn) (ct pz : Json)
    (kvs : List (String × Json)) :
    cpfOK cpf ⟨.etapa1Simulador, fd1List cpf body ct pz kvs⟩ :=
  fun v hv => fd1List_cpf cpf body ct pz kvs v hv

theorem cpfOK_fd2 (cpf : String) (body : FormalizarIn) (id_sim : Json) :
    cpfOK cpf ⟨.etapa2DadosPessoais, fd2List body cpf id_sim⟩ :=
  fun v hv => fd2List_cpf body cpf id_sim v hv

theorem cpfOK_fd3 (cpf : String) (cc ids : Json) :
    cpfOK cpf ⟨.etapa3PropostaCadastro,
      [("codigo_cliente", cc), ("id_simulador", ids),
       ("tipo_formalizacao", Json.str "DIG")]⟩ := by
  intro v hv
  simp only [List.mem_cons, List.not_mem_nil, or_false, Prod.mk.injEq] at hv
  rcases hv with h | h | h <;> exact absurd h.1 (by decide)

theorem cpfOK_envLink (cpf : String) (codigo : Json) :
    cpfOK cpf ⟨.envioLink,
      [("codigo_af", codigo), ("tipo_envio", Json.str "Whatsapp")]⟩ := by
  intro v hv
  simp only [List.mem_cons, List.not_mem_nil, or_false, Prod.mk.injEq] at hv
  rcases hv with h | h <;> exact absurd h.1 (by decide)

/-- Every call `formalizar` emits carries only the canonical cpf in its
`cpf` field. -/
theorem formalizar_trace_cpf (body : FormalizarIn) (env : FormEnv) :
    ∀ c ∈ (formalizar body env).2, cpfOK (digits body.cpf) c := by
  intro c hc
  unfold formalizar formalizarCore at hc
  iterate 14
    (all_goals try (split at hc)
     all_goals try (simp only [List.cons_append, List.nil_append, List.append_assoc,
       List.mem_cons, List.mem_append, List.mem_singleton, List.not_mem_nil,
       or_false] at hc))
  all_goals repeat' (rcases hc with rfl | hc)
  all_goals
    first
      | exact cpfOK_geraToken _
      | exact cpfOK_ops _ _
      | exact cpfOK_fd1 _ _ _ _ _
      | exact cpfOK_fd2 _ _ _
      | exact cpfOK_fd3 _ _ _
      | exact cpfOK_envLink _ _

/-- Every call `consulta_ofertas` emits carries only the canonical cpf. -/
theorem consulta_trace_cpf (body : ConsultaIn) (tokR offR : Response) :
    ∀ c ∈ (consulta_ofertas body tokR offR).2, cpfOK (digits body.cpf) c := by
  intro c hc
  unfold consulta_ofertas at hc
  iterate 8 (all_goals try (split at hc))
  all_goals try (simp only [List.mem_cons, List.mem_singleton, List.not_mem_nil,
    or_false] at hc)
  all_goals repeat' (rcases hc with rfl | hc)
  all_goals
    first
      | exact cpfOK_geraToken _
      | (intro v hv
         simp only [List.mem_cons, List.not_mem_nil, or_false,
           Prod.mk.injEq] at hv
         exact hv.2)

/-- A successful offer query echoes the canonical cpf. -/
theorem consulta_ok_cpf (body : ConsultaIn) (tokR offR : Response)
    (out : ConsultaOut) (h : (consulta_ofertas body tokR offR).1 = .ok out) :
    out.cpf = digits body.cpf := by
  unfold consulta_ofertas at h
  iterate 8 (all_goals try (split at h))
  all_goals
    first
      | (simp at h
         done)
      | (simp only [Except.ok.injEq] at h
         rw [← h])

/-! ### Claims -/

/-- C1: For every non-empty list of rate-table candidates whose net values
parse as decimal numbers, the table selection in `formalizar`
(`selectTable`, app.py line 138) returns the candidate with the maximum
net value; when two or more candidates share the maximum net value, it
returns the one appearing first in the input list (every candidate
strictly before the selected one has a strictly smaller net value). -/
theorem C1_best_table_max_first (ds : List Json) (hne : ds ≠ [])
    (hk : ∀ d ∈ ds, (tableKey d).isSome = true) :
    ∃ b l1 l2, selectTable ds = .ok b ∧ ds = l1 ++ b :: l2 ∧
      (∀ y ∈ ds, keyD y ≤ keyD b) ∧ (∀ y ∈ l1, keyD y < keyD b) := by
  cases ds with
  | nil => exact absurd rfl hne
  | cons a l =>
      have hall : (a :: l).all (fun d => (tableKey d).isSome) = true := by
        rw [List.all_eq_true]
        intro d hd
        exact hk d hd
      obtain ⟨l1, l2, heq, hlt⟩ := firstMaxBy_split keyD l a
      refine ⟨firstMaxBy keyD a l, l1, l2, ?_, heq, ?_, hlt⟩
      · simp [selectTable, hall]
      · intro y hy
        exact firstMaxBy_ub keyD l a y (List.mem_cons.mp hy)

/-- Witness for C1 at a concrete two-table list (net values 1000, 1500). -/
theorem C1_witness :
    ∃ b l1 l2, selectTable [tbl1, tbl2] = .ok b ∧ [tbl1, tbl2] = l1 ++ b :: l2 ∧
      (∀ y ∈ [tbl1, tbl2], keyD y ≤ keyD b) ∧ (∀ y ∈ l1, keyD y < keyD b) :=
  C1_best_table_max_first [tbl1, tbl2] (by simp) (by decide)

/-- C5 counterexample: a candidate whose net value is the non-numeric
string "abc" does not make the selection succeed with net value zero — the
`float(...)` key computation raises, so the selection fails with an
unclassified internal error. -/
theorem C5_counterexample :
    selectTable [.obj [("valor_liquido", .str "abc")]] = .error .internal := rfl

/-- C5 (amended): a candidate whose net value field is missing is treated
as having net value zero, and the selection succeeds whenever every
candidate's key computation succeeds; a non-numeric net value instead
makes the whole selection raise. -/
theorem C5_missing_value_is_zero :
    (∀ kvs : List (String × Json), lookupKey kvs "valor_liquido" = none →
      tableKey (.obj kvs) = some 0) ∧
    (∀ ds : List Json, ds ≠ [] → (∀ d ∈ ds, (tableKey d).isSome = true) →
      ∃ b, selectTable ds = .ok b) := by
  constructor
  · intro kvs h
    simp [tableKey, jgetDD, h, pyFloat]
  · intro ds hne hk
    cases ds with
    | nil => exact absurd rfl hne
    | cons a l =>
        have hall : (a :: l).all (fun d => (tableKey d).isSome) = true := by
          rw [List.all_eq_true]
          intro d hd
          exact hk d hd
        exact ⟨firstMaxBy keyD a l, by simp [selectTable, hall]⟩

/-- Witness for the amended C5: a candidate with no `valor_liquido` key has
key zero, and selecting from the one-candidate list succeeds. -/
theorem C5_witness :
    tableKey (.obj []) = some 0 ∧ ∃ b, selectTable [.obj []] = .ok b :=
  ⟨C5_missing_value_is_zero.1 [] rfl,
   C5_missing_value_is_zero.2 [.obj []] (by simp) (by decide)⟩

/-- C6 counterexample: a 200 non-HTML response whose body parses to a JSON
array (so it "parses but contains no usable token field") is not classified
`UpstreamProtocolError` — `j.get("token")` raises on a non-dict, an
unclassified failure. -/
theorem C6_counterexample :
    get_token ⟨"application/json", 200, some (.arr [])⟩ = .error .internal ∧
      Err.internal ≠ Err.upstreamProtocolError :=
  ⟨rfl, fun h => Err.noConfusion h⟩

/-- C6 (amended): `get_token` classifies an HTML content type as
`UpstreamBlocked`, then a non-200 status as `UpstreamUnavailable`, then a
body parsing to an object with no truthy `token` field as
`UpstreamProtocolError`; on success it returns the token value.  A body
that fails to parse, or parses to a non-object, raises an unclassified
internal error instead. -/
theorem C6_token_classification (r : Response) :
    (strStarts r.contentType "text/html" = true →
      get_token r = .error .upstreamBlocked) ∧
    (strStarts r.contentType "text/html" = false → r.status ≠ 200 →
      get_token r = .error .upstreamUnavailable) ∧
    (∀ kvs, strStarts r.contentType "text/html" = false → r.status = 200 →
      r.body = some (.obj kvs) → (jgetD kvs "token").truthy = false →
      get_token r = .error .upstreamProtocolError) ∧
    (∀ kvs, strStarts r.contentType "text/html" = false → r.status = 200 →
      r.body = some (.obj kvs) → (jgetD kvs "token").truthy = true →
      get_token r = .ok (jgetD kvs "token")) ∧
    (strStarts r.contentType "text/html" = false → r.status = 200 →
      r.body = none → get_token r = .error .internal) ∧
    (∀ j, strStarts r.contentType "text/html" = false → r.status = 200 →
      r.body = some j → j.isObj = false → get_token r = .error .internal) := by
  refine ⟨?_, ?_, ?_, ?_, ?_, ?_⟩
  · intro h
    simp [get_token, h]
  · intro h hs
    simp [get_token, h, hs]
  · intro kvs h hs hb ht
    simp [get_token, h, hs, hb, ht]
  · intro kvs h hs hb ht
    simp [get_token, h, hs, hb, ht]
  · intro h hs hb
    simp [get_token, h, hs, hb]
  · intro j h hs hb hobj
    cases j <;> simp_all [get_token, Json.isObj]

/-- Witness for the amended C6 at concrete responses, one per
classification. -/
theorem C6_witness :
    get_token ⟨"text/html", 200, none⟩ = .error .upstreamBlocked ∧
    get_token ⟨"application/json", 503, none⟩ = .error .upstreamUnavailable ∧
    get_token ⟨"application/json", 200, some (.obj [("erro", .str "x")])⟩
        = .error .upstreamProtocolError ∧
    get_token ⟨"application/json", 200, some (.obj [("token", .str "t")])⟩
        = .ok (.str "t") ∧
    get_token ⟨"application/json", 200, none⟩ = .error .internal ∧
    get_token ⟨"application/json", 200, some (.str "oops")⟩ = .error .internal :=
  ⟨(C6_token_classification _).1 rfl,
   (C6_token_classification _).2.1 rfl (by decide),
   (C6_token_classification _).2.2.1 [("erro", .str "x")] rfl rfl rfl rfl,
   (C6_token_classification _).2.2.2.1 [("token", .str "t")] rfl rfl rfl rfl,
   (C6_token_classification _).2.2.2.2.1 rfl rfl rfl,
   (C6_token_classification _).2.2.2.2.2 (.str "oops") rfl rfl rfl rfl⟩

/-- C2 counterexample: an HTML (unparseable) response to the
available-operations call inside `formalizar` is not classified
`UpstreamBlocked` — `r1.json()` raises, an unclassified internal error. -/
theorem C2_counterexample :
    strStarts envHtmlOps.opsResp.contentType "text/html" = true ∧
    (formalizar exBody envHtmlOps).1 = .error .internal ∧
    Err.internal ≠ Err.upstreamBlocked :=
  ⟨rfl, rfl, fun h => Err.noConfusion h⟩

/-- C2 (amended): the HTML content-type check covers only the token
exchange and the offer lookup (both classified `UpstreamBlocked`).  The
calls inside `formalizar` never inspect the content type: an HTML (hence
unparseable) response to the available-operations call or to the
simulate, register or create-proposal POST steps makes `r.json()` raise,
failing the operation with an unclassified internal error; the response
of the final send-link POST is never read, so an HTML response there
leaves the operation's result unchanged. -/
theorem C2_html_classification (cb : ConsultaIn) (tokR offR : Response)
    (body : FormalizarIn) (env : FormEnv) (r2 : Response)
    (tk best : Json) (kvs1 : List (String × Json)) (ds : List Json)
    (fd1 : List (String × Json)) (kvs2 kvs3 : List (String × Json)) :
    (∀ r : Response, strStarts r.contentType "text/html" = true →
      get_token r = .error .upstreamBlocked) ∧
    (get_token tokR = .ok tk →
      strStarts offR.contentType "text/html" = true →
      (consulta_ofertas cb tokR offR).1 = .error .upstreamBlocked) ∧
    (get_token env.tokenResp = .ok tk →
      strStarts env.opsResp.contentType "text/html" = true →
      env.opsResp.body = none →
      (formalizar body env).1 = .error .internal) ∧
    (get_token env.tokenResp = .ok tk →
      env.opsResp.body = some (.obj kvs1) →
      jgetDD kvs1 "tabelas" (.arr []) = .arr ds →
      selectTable ds = .ok best →
      buildFd1 (digits body.cpf) body best = some fd1 →
      strStarts env.simResp.contentType "text/html" = true →
      env.simResp.body = none →
      (formalizar body env).1 = .error .internal) ∧
    (get_token env.tokenResp = .ok tk →
      env.opsResp.body = some (.obj kvs1) →
      jgetDD kvs1 "tabelas" (.arr []) = .arr ds →
      selectTable ds = .ok best →
      buildFd1 (digits body.cpf) body best = some fd1 →
      env.simResp.body = some (.obj kvs2) →
      (jgetD kvs2 "id_simulador").truthy = true →
      strStarts env.regResp.contentType "text/html" = true →
      env.regResp.body = none →
      (formalizar body env).1 = .error .internal) ∧
    (get_token env.tokenResp = .ok tk →
      env.opsResp.body = some (.obj kvs1) →
      jgetDD kvs1 "tabelas" (.arr []) = .arr ds →
      selectTable ds = .ok best →
      buildFd1 (digits body.cpf) body best = some fd1 →
      env.simResp.body = some (.obj kvs2) →
      (jgetD kvs2 "id_simulador").truthy = true →
      env.regResp.body = some (.obj kvs3) →
      (jgetD kvs3 "codigo_cliente").truthy = true →
      strStarts env.propResp.contentType "text/html" = true →
      env.propResp.body = none →
      (formalizar body env).1 = .error .internal) ∧
    (strStarts r2.contentType "text/html" = true →
      formalizar body { env with linkResp := r2 } = formalizar body env) := by
  refine ⟨?_, ?_, ?_, ?_, ?_, ?_, ?_⟩
  · intro r h
    simp [get_token, h]
  · intro h1 h2
    simp [consulta_ofertas, h1, h2]
  · intro h1 h2 h3
    simp [formalizar, formalizarCore, h1, h3]
  · intro h1 h2 h3 h4 h5 h6 h7
    obtain ⟨d, dt, rfl⟩ : ∃ d dt, ds = d :: dt := by
      cases ds with
      | nil => rw [selectTable] at h4; simp at h4
      | cons d dt => exact ⟨d, dt, rfl⟩
    have htr : (Json.arr (d :: dt)).truthy = true := rfl
    obtain ⟨kvsB, ct, pz, rfl, hct, hpz, rfl⟩ := buildFd1_some_inv _ body best fd1 h5
    simp [formalizar, formalizarCore, h1, h2, h3, h4, hct, hpz, htr, h7]
  · intro h1 h2 h3 h4 h5 h6 h7 h8 h9
    obtain ⟨d, dt, rfl⟩ : ∃ d dt, ds = d :: dt := by
      cases ds with
      | nil => rw [selectTable] at h4; simp at h4
      | cons d dt => exact ⟨d, dt, rfl⟩
    have htr : (Json.arr (d :: dt)).truthy = true := rfl
    obtain ⟨kvsB, ct, pz, rfl, hct, hpz, rfl⟩ := buildFd1_some_inv _ body best fd1 h5
    simp [formalizar, formalizarCore, h1, h2, h3, h4, hct, hpz, htr, h6, h7, h9]
  · intro h1 h2 h3 h4 h5 h6 h7 h8 h9 h10 h11
    obtain ⟨d, dt, rfl⟩ : ∃ d dt, ds = d :: dt := by
      cases ds with
      | nil => rw [selectTable] at h4; simp at h4
      | cons d dt => exact ⟨d, dt, rfl⟩
    have htr : (Json.arr (d :: dt)).truthy = true := rfl
    obtain ⟨kvsB, ct, pz, rfl, hct, hpz, rfl⟩ := buildFd1_some_inv _ body best fd1 h5
    simp [formalizar, formalizarCore, h1, h2, h3, h4, hct, hpz, htr, h6, h7, h8, h9, h11]
  · intro h
    exact formalizar_ignores_linkResp body env r2

/-- Witness for the amended C2: each clause at a concrete input — HTML at
the token exchange, the offer lookup, the available-operations call, each
of the simulate/register/create-proposal steps (unclassified internal
error), and the send-link step (result unchanged). -/
theorem C2_witness :
    get_token htmlResp = .error .upstreamBlocked ∧
    (consulta_ofertas exConsulta tokOK htmlResp).1 = .error .upstreamBlocked ∧
    (formalizar exBody envHtmlOps).1 = .error .internal ∧
    (formalizar exBody envHtmlSim).1 = .error .internal ∧
    (formalizar exBody envHtmlReg).1 = .error .internal ∧
    (formalizar exBody envHtmlProp).1 = .error .internal ∧
    formalizar exBody { envOK with linkResp := htmlResp } = formalizar exBody envOK :=
  ⟨(C2_html_classification exConsulta tokOK htmlResp exBody envOK htmlResp (.str "t")
      tbl2 [] [] [] [] []).1 htmlResp (by decide),
   (C2_html_classification exConsulta tokOK htmlResp exBody envOK htmlResp (.str "t")
      tbl2 [] [] [] [] []).2.1 (by rfl) (by decide),
   (C2_html_classification exConsulta tokOK htmlResp exBody envHtmlOps htmlResp (.str "t")
      tbl2 [] [] [] [] []).2.2.1 (by rfl) (by decide) (by rfl),
   (C2_html_classification exConsulta tokOK htmlResp exBody envHtmlSim htmlResp (.str "t")
      tbl2 [("tabelas", .arr [tbl1, tbl2])] [tbl1, tbl2]
      (fd1List (digits exBody.cpf) exBody (.num 2) (.num 24)
        [("codigoTabela", .num 2), ("prazo", .num 24), ("valor_liquido", .num 1500)])
      [] []).2.2.2.1 (by rfl) (by rfl) (by rfl) (by rfl) (by rfl) (by decide) (by rfl),
   (C2_html_classification exConsulta tokOK htmlResp exBody envHtmlReg htmlResp (.str "t")
      tbl2 [("tabelas", .arr [tbl1, tbl2])] [tbl1, tbl2]
      (fd1List (digits exBody.cpf) exBody (.num 2) (.num 24)
        [("codigoTabela", .num 2), ("prazo", .num 24), ("valor_liquido", .num 1500)])
      [("id_simulador", .str "s1")] []).2.2.2.2.1 (by rfl) (by rfl) (by rfl) (by rfl)
      (by rfl) (by rfl) (by decide) (by decide) (by rfl),
   (C2_html_classification exConsulta tokOK htmlResp exBody envHtmlProp htmlResp (.str "t")
      tbl2 [("tabelas", .arr [tbl1, tbl2])] [tbl1, tbl2]
      (fd1List (digits exBody.cpf) exBody (.num 2) (.num 24)
        [("codigoTabela", .num 2), ("prazo", .num 24), ("valor_liquido", .num 1500)])
      [("id_simulador", .str "s1")] [("codigo_cliente", .str "c1")]).2.2.2.2.2.1
      (by rfl) (by rfl) (by rfl) (by rfl) (by rfl) (by rfl) (by decide) (by rfl)
      (by decide) (by decide) (by rfl),
   (C2_html_classification exConsulta tokOK htmlResp exBody envOK htmlResp (.str "t")
      tbl2 [] [] [] [] []).2.2.2.2.2.2 (by decide)⟩

/-- C7 counterexample: (i) an offer-lookup body parsing to a JSON array —
so that neither known list field is present — does not yield an empty
offer list: `j.get("dados")` raises on a non-dict, an unclassified
failure; (ii) an entry holding only `descricao` is not normalized to the
same `Offer` as one holding only `oferta` when the value is the (falsy)
empty string. -/
theorem C7_counterexample :
    (consulta_ofertas exConsulta tokOK offArr).1 = .error .internal ∧
      normOffer [("descricao", .str "")] ≠ normOffer [("oferta", .str "")] :=
  ⟨by rfl, fun h => Json.noConfusion (congrArg Offer.oferta h)⟩

/-- C7 (amended): for offer-lookup bodies that parse as JSON objects, a
missing or non-collection list field yields a successful empty offer list;
a list whose entries are all objects yields success with zero or more
offers; an entry with only `descricao`/`situacao` normalizes like one with
only `oferta`/`resposta` when the values are truthy; an entry with neither
field maps to an `Offer` with absent description and status.  (A body or
entry that is not a JSON object raises an unclassified error instead.) -/
theorem C7_offer_normalization :
    (∀ (body : ConsultaIn) (tokR offR : Response) (tk : Json)
        (kvs : List (String × Json)),
      get_token tokR = .ok tk →
      strStarts offR.contentType "text/html" = false →
      offR.body = some (.obj kvs) →
      (extract_ofertas_raw kvs).isArr = false →
      (consulta_ofertas body tokR offR).1 = .ok ⟨digits body.cpf, 0, []⟩) ∧
    (∀ (body : ConsultaIn) (tokR offR : Response) (tk : Json)
        (kvs : List (String × Json)) (ds : List Json),
      get_token tokR = .ok tk →
      strStarts offR.contentType "text/html" = false →
      offR.body = some (.obj kvs) →
      extract_ofertas_raw kvs = .arr ds →
      (∀ d ∈ ds, d.isObj = true) →
      ∃ offers, (consulta_ofertas body tokR offR).1
          = .ok ⟨digits body.cpf, offers.length, offers⟩) ∧
    (∀ v w : Json, v.truthy = true → w.truthy = true →
      normOffer [("descricao", v), ("situacao", w)]
        = normOffer [("oferta", v), ("resposta", w)]) ∧
    normOffer [] = ⟨.null, .null⟩ := by
  refine ⟨?_, ?_, ?_, rfl⟩
  · intro body tokR offR tk kvs h1 h2 h3 h4
    cases hex : extract_ofertas_raw kvs with
    | arr ds => rw [hex] at h4; simp [Json.isArr] at h4
    | null => simp [consulta_ofertas, h1, h2, h3, hex]
    | bool b => simp [consulta_ofertas, h1, h2, h3, hex]
    | num q => simp [consulta_ofertas, h1, h2, h3, hex]
    | str st => simp [consulta_ofertas, h1, h2, h3, hex]
    | obj kvs2 => simp [consulta_ofertas, h1, h2, h3, hex]
  · intro body tokR offR tk kvs ds h1 h2 h3 hex hobj
    obtain ⟨offers, hoff⟩ := mapNormalize_ok ds hobj
    exact ⟨offers, by simp [consulta_ofertas, h1, h2, h3, hex, hoff]⟩
  · intro v w hv hw
    show Offer.mk v w = Offer.mk (pyOr v .null) (pyOr w .null)
    simp [pyOr, hv, hw]

/-- Witness for the amended C7: the four clauses at concrete inputs
(non-collection `dados`, scenario-A offer list, a truthy value pair, and
the empty entry). -/
theorem C7_witness :
    (consulta_ofertas exConsulta tokOK offScalar).1 = .ok ⟨"12345678909", 0, []⟩ ∧
    (∃ offers, (consulta_ofertas exConsulta tokOK offA).1
        = .ok ⟨"12345678909", offers.length, offers⟩) ∧
    normOffer [("descricao", .str "Refin"), ("situacao", .str "Aprovado")]
      = normOffer [("oferta", .str "Refin"), ("resposta", .str "Aprovado")] ∧
    normOffer [] = ⟨.null, .null⟩ :=
  ⟨C7_offer_normalization.1 exConsulta tokOK offScalar (.str "t")
      [("dados", .num 5)] (by rfl) (by decide) (by rfl) (by decide),
   C7_offer_normalization.2.1 exConsulta tokOK offA (.str "t")
      [("dados", .arr [.obj [("descricao", .str "Refin"), ("situacao", .str "Aprovado")]])]
      [.obj [("descricao", .str "Refin"), ("situacao", .str "Aprovado")]]
      (by rfl) (by decide) (by rfl) (by rfl) (by decide),
   C7_offer_normalization.2.2.1 (.str "Refin") (.str "Aprovado") (by decide) (by decide),
   C7_offer_normalization.2.2.2⟩

/-- C4: when the available-operations response yields an empty (or absent)
table list, `formalizar` fails with `NoEligibleTable` and no further lender
call (simulate, register, proposal, send-link) is made. -/
theorem C4_no_table_stops (body : FormalizarIn) (env : FormEnv) (tk : Json)
    (kvs1 : List (String × Json))
    (h1 : get_token env.tokenResp = .ok tk)
    (h2 : env.opsResp.body = some (.obj kvs1))
    (h3 : lookupKey kvs1 "tabelas" = some (.arr []) ∨ lookupKey kvs1 "tabelas" = none) :
    (formalizar body env).1 = .error .noEligibleTable ∧
      ∀ c ∈ (formalizar body env).2,
        c.endpoint ≠ .etapa1Simulador ∧ c.endpoint ≠ .etapa2DadosPessoais ∧
        c.endpoint ≠ .etapa3PropostaCadastro ∧ c.endpoint ≠ .envioLink := by
  have ht : jgetDD kvs1 "tabelas" (.arr []) = .arr [] := by
    rcases h3 with h3 | h3 <;> simp [jgetDD, h3]
  constructor
  · simp [formalizar, formalizarCore, h1, h2, ht, Json.truthy]
  · intro c hc
    simp only [formalizar, formalizarCore, h1, h2, ht] at hc
    simp only [Json.truthy, List.isEmpty_nil, Bool.not_true, Bool.false_eq_true,
      if_false, List.mem_cons, List.not_mem_nil, or_false] at hc
    rcases hc with rfl | rfl <;> exact ⟨by simp, by simp, by simp, by simp⟩

/-- Witness for C4 at a concrete environment whose available-operations
response is `{"tabelas": []}`. -/
theorem C4_witness :
    (formalizar exBody envC4).1 = .error .noEligibleTable ∧
      ∀ c ∈ (formalizar exBody envC4).2,
        c.endpoint ≠ .etapa1Simulador ∧ c.endpoint ≠ .etapa2DadosPessoais ∧
        c.endpoint ≠ .etapa3PropostaCadastro ∧ c.endpoint ≠ .envioLink :=
  C4_no_table_stops exBody envC4 (.str "t") [("tabelas", .arr [])]
    (by rfl) (by rfl) (Or.inl (by rfl))

/-- C3: when the register step's response parses as an object lacking
`codigo_cliente`, `formalizar` fails with `StepFailed("register", <body>)`
and no request is ever sent to the proposal endpoint. -/
theorem C3_register_failure_stops (body : FormalizarIn) (env : FormEnv)
    (tk best : Json) (kvs1 : List (String × Json)) (ds : List Json)
    (fd1 : List (String × Json)) (kvs2 kvs3 : List (String × Json))
    (h1 : get_token env.tokenResp = .ok tk)
    (h2 : env.opsResp.body = some (.obj kvs1))
    (h3 : jgetDD kvs1 "tabelas" (.arr []) = .arr ds)
    (h4 : selectTable ds = .ok best)
    (h5 : buildFd1 (digits body.cpf) body best = some fd1)
    (h6 : env.simResp.body = some (.obj kvs2))
    (h7 : (jgetD kvs2 "id_simulador").truthy = true)
    (h8 : env.regResp.body = some (.obj kvs3))
    (h9 : lookupKey kvs3 "codigo_cliente" = none) :
    (formalizar body env).1 = .error (.stepFailed "register" (.obj kvs3)) ∧
      ∀ c ∈ (formalizar body env).2, c.endpoint ≠ .etapa3PropostaCadastro := by
  obtain ⟨d, dt, rfl⟩ : ∃ d dt, ds = d :: dt := by
    cases ds with
    | nil => rw [selectTable] at h4; simp at h4
    | cons d dt => exact ⟨d, dt, rfl⟩
  have h9b : (jgetD kvs3 "codigo_cliente").truthy = false := by
    simp [jgetD, h9, Json.truthy]
  have htr : (Json.arr (d :: dt)).truthy = true := rfl
  obtain ⟨kvsB, ct, pz, rfl, hct, hpz, rfl⟩ := buildFd1_some_inv _ body best fd1 h5
  constructor
  · simp [formalizar, formalizarCore, h1, h2, h3, h4, hct, hpz, h6, htr, h7, h8, h9b]
  · intro c hc
    simp only [formalizar, formalizarCore, h1, h2, h3, h4, hct, hpz, h6, h8, htr, h7, h9b,
      if_true, Bool.false_eq_true, if_false, List.append_assoc, List.cons_append,
      List.nil_append, List.mem_cons, List.not_mem_nil, or_false] at hc
    rcases hc with rfl | rfl | rfl | rfl <;> simp

/-- Witness for C3: end-to-end scenario D at a concrete environment whose
register response is `{}`. -/
theorem C3_witness :
    (formalizar exBody envC3).1 = .error (.stepFailed "register" (.obj [])) ∧
      ∀ c ∈ (formalizar exBody envC3).2, c.endpoint ≠ .etapa3PropostaCadastro :=
  C3_register_failure_stops exBody envC3 (.str "t") tbl2
    [("tabelas", .arr [tbl1, tbl2])] [tbl1, tbl2]
    (fd1List (digits exBody.cpf) exBody (.num 2) (.num 24)
      [("codigoTabela", .num 2), ("prazo", .num 24), ("valor_liquido", .num 1500)])
    [("id_simulador", .str "s1")] []
    (by rfl) (by rfl) (by rfl) (by rfl) (by rfl) (by rfl) (by decide) (by rfl) (by rfl)

/-- C8 counterexample: in a run that reaches the send-link step, the
delivery-channel marker actually transmitted is the string "Whatsapp",
not "WhatsApp" as the claim states. -/
theorem C8_counterexample :
    ((formalizar exBody envOK).2.map Call.endpoint)
        = [.geraToken, .operacoesDisponiveis, .etapa1Simulador,
           .etapa2DadosPessoais, .etapa3PropostaCadastro, .envioLink] ∧
    ((formalizar exBody envOK).2.map Call.formData).getLast?
        = some [("codigo_af", Json.str "af1"), ("tipo_envio", Json.str "Whatsapp")] ∧
    Json.str "Whatsapp" ≠ Json.str "WhatsApp" := by
  refine ⟨by rfl, by rfl, ?_⟩
  intro h
  injection h with h2
  exact absurd h2 (by decide)

/-- C8 (amended): a run that reaches the send-link step submits the
proposal code with the fixed marker "Whatsapp", the overall operation
returns success with the proposal code and formalization URL, and the
result is identical whatever response the send-link call gets (its
outcome is never read). -/
theorem C8_sendlink_best_effort (body : FormalizarIn) (env : FormEnv)
    (r2 : Response) (tk best : Json) (kvs1 : List (String × Json)) (ds : List Json)
    (fd1 : List (String × Json)) (kvs2 kvs3 kvs4 : List (String × Json))
    (h1 : get_token env.tokenResp = .ok tk)
    (h2 : env.opsResp.body = some (.obj kvs1))
    (h3 : jgetDD kvs1 "tabelas" (.arr []) = .arr ds)
    (h4 : selectTable ds = .ok best)
    (h5 : buildFd1 (digits body.cpf) body best = some fd1)
    (h6 : env.simResp.body = some (.obj kvs2))
    (h7 : (jgetD kvs2 "id_simulador").truthy = true)
    (h8 : env.regResp.body = some (.obj kvs3))
    (h9 : (jgetD kvs3 "codigo_cliente").truthy = true)
    (h10 : env.propResp.body = some (.obj kvs4))
    (h11 : (jgetD kvs4 "codigo").truthy = true) :
    (formalizar body env).1
        = .ok ⟨jgetD kvs4 "codigo", jgetD kvs4 "url_formalizacao"⟩ ∧
    (⟨.envioLink, [("codigo_af", jgetD kvs4 "codigo"),
        ("tipo_envio", Json.str "Whatsapp")]⟩ : Call) ∈ (formalizar body env).2 ∧
    formalizar body { env with linkResp := r2 } = formalizar body env := by
  obtain ⟨d, dt, rfl⟩ : ∃ d dt, ds = d :: dt := by
    cases ds with
    | nil => rw [selectTable] at h4; simp at h4
    | cons d dt => exact ⟨d, dt, rfl⟩
  have htr : (Json.arr (d :: dt)).truthy = true := rfl
  obtain ⟨kvsB, ct, pz, rfl, hct, hpz, rfl⟩ := buildFd1_some_inv _ body best fd1 h5
  refine ⟨?_, ?_, formalizar_ignores_linkResp body env r2⟩
  · simp [formalizar, formalizarCore, h1, h2, h3, h4, hct, hpz, h6, htr, h7, h8, h9,
      h10, h11]
  · simp [formalizar, formalizarCore, h1, h2, h3, h4, hct, hpz, h6, htr, h7, h8, h9,
      h10, h11]

/-- Witness for the amended C8 at a concrete environment in which every
step succeeds, with a failing send-link response. -/
theorem C8_witness :
    (formalizar exBody envOK).1 = .ok ⟨.str "af1", .str "https://u"⟩ ∧
    (⟨.envioLink, [("codigo_af", .str "af1"), ("tipo_envio", Json.str "Whatsapp")]⟩ : Call)
        ∈ (formalizar exBody envOK).2 ∧
    formalizar exBody { envOK with linkResp := linkFail } = formalizar exBody envOK :=
  C8_sendlink_best_effort exBody envOK linkFail (.str "t") tbl2
    [("tabelas", .arr [tbl1, tbl2])] [tbl1, tbl2]
    (fd1List (digits exBody.cpf) exBody (.num 2) (.num 24)
      [("codigoTabela", .num 2), ("prazo", .num 24), ("valor_liquido", .num 1500)])
    [("id_simulador", .str "s1")] [("codigo_cliente", .str "c1")]
    [("codigo", .str "af1"), ("url_formalizacao", .str "https://u")]
    (by rfl) (by rfl) (by rfl) (by rfl) (by rfl) (by rfl) (by decide) (by rfl)
    (by decide) (by rfl) (by decide)

/-- C10: the simulate payload requires the selected table's `codigoTabela`
and `prazo` by direct indexing — if either is missing the operation fails
with an unclassified internal error (not `StepFailed`, `NoEligibleTable`
or `UpstreamProtocolError`) — whereas missing `contrato`, `parcela` or
`coeficiente` are tolerated via defaults, with `valor_operacao` falling
back from `contrato` to `valor_liquido` and then to 0. -/
theorem C10_table_required_fields (cpf : String) (body : FormalizarIn)
    (env : FormEnv) (tk ct pz v : Json)
    (kvs kvs1 : List (String × Json)) (ds : List Json) :
    ((lookupKey kvs "codigoTabela" = none ∨ lookupKey kvs "prazo" = none) →
      buildFd1 cpf body (.obj kvs) = none) ∧
    (lookupKey kvs "codigoTabela" = some ct → lookupKey kvs "prazo" = some pz →
      buildFd1 cpf body (.obj kvs) = some (fd1List cpf body ct pz kvs)) ∧
    (lookupKey kvs "contrato" = none → lookupKey kvs "valor_liquido" = some v →
      ("valor_operacao", v) ∈ fd1List cpf body ct pz kvs) ∧
    (lookupKey kvs "contrato" = none → lookupKey kvs "valor_liquido" = none →
      ("valor_operacao", Json.num 0) ∈ fd1List cpf body ct pz kvs) ∧
    (get_token env.tokenResp = .ok tk → env.opsResp.body = some (.obj kvs1) →
      jgetDD kvs1 "tabelas" (.arr []) = .arr ds →
      selectTable ds = .ok (.obj kvs) →
      buildFd1 (digits body.cpf) body (.obj kvs) = none →
      (formalizar body env).1 = .error .internal) := by
  refine ⟨?_, ?_, ?_, ?_, ?_⟩
  · rintro (h | h)
    · simp [buildFd1, h]
    · cases hct : lookupKey kvs "codigoTabela" <;> simp [buildFd1, hct, h]
  · intro hc hp
    simp [buildFd1, hc, hp]
  · intro h1 h2
    simp [fd1List, jgetDD, h1, h2]
  · intro h1 h2
    simp [fd1List, jgetDD, h1, h2]
  · intro h1 h2 h3 h4 h5
    obtain ⟨d, dt, rfl⟩ : ∃ d dt, ds = d :: dt := by
      cases ds with
      | nil => rw [selectTable] at h4; simp at h4
      | cons d dt => exact ⟨d, dt, rfl⟩
    have htr : (Json.arr (d :: dt)).truthy = true := rfl
    cases hct : lookupKey kvs "codigoTabela" with
    | none => simp [formalizar, formalizarCore, h1, h2, h3, h4, htr, hct]
    | some ct2 =>
        cases hpz : lookupKey kvs "prazo" with
        | none => simp [formalizar, formalizarCore, h1, h2, h3, h4, htr, hct, hpz]
        | some pz2 => simp [buildFd1, hct, hpz] at h5

/-- Witness for C10: a table lacking `codigoTabela` makes the payload
build fail (and the whole run abort with an internal error), while one
with only `codigoTabela`/`prazo` succeeds, defaulting `valor_operacao`. -/
theorem C10_witness :
    buildFd1 "1" exBody (.obj [("prazo", .num 12)]) = none ∧
    buildFd1 "1" exBody (.obj [("codigoTabela", .num 7), ("prazo", .num 12)])
      = some (fd1List "1" exBody (.num 7) (.num 12)
          [("codigoTabela", .num 7), ("prazo", .num 12)]) ∧
    ("valor_operacao", Json.num 1000) ∈
      fd1List "1" exBody (.num 7) (.num 12)
        [("codigoTabela", .num 7), ("prazo", .num 12), ("valor_liquido", .num 1000)] ∧
    ("valor_operacao", Json.num 0) ∈
      fd1List "1" exBody (.num 7) (.num 12)
        [("codigoTabela", .num 7), ("prazo", .num 12)] ∧
    (formalizar exBody envC10).1 = .error .internal :=
  ⟨(C10_table_required_fields "1" exBody envC10 (.str "t") (.num 7) (.num 12)
      (.num 1000) [("prazo", .num 12)] [] []).1 (Or.inl (by rfl)),
   (C10_table_required_fields "1" exBody envC10 (.str "t") (.num 7) (.num 12)
      (.num 1000) [("codigoTabela", .num 7), ("prazo", .num 12)] [] []).2.1
      (by rfl) (by rfl),
   (C10_table_required_fields "1" exBody envC10 (.str "t") (.num 7) (.num 12)
      (.num 1000)
      [("codigoTabela", .num 7), ("prazo", .num 12), ("valor_liquido", .num 1000)]
      [] []).2.2.1 (by rfl) (by rfl),
   (C10_table_required_fields "1" exBody envC10 (.str "t") (.num 7) (.num 12)
      (.num 1000) [("codigoTabela", .num 7), ("prazo", .num 12)] [] []).2.2.2.1
      (by rfl) (by rfl),
   (C10_table_required_fields "1" exBody envC10 (.str "t") (.num 7) (.num 12)
      (.num 1000) [("prazo", .num 12), ("valor_liquido", .num 1000)]
      [("tabelas", .arr [.obj [("prazo", .num 12), ("valor_liquido", .num 1000)]])]
      [.obj [("prazo", .num 12), ("valor_liquido", .num 1000)]]).2.2.2.2
      (by rfl) (by rfl) (by rfl) (by rfl) (by rfl)⟩

/-- C9: the canonical id-number transmitted to the lender (every `cpf`
query parameter / form field of every outbound call) and echoed in the
offer-query response equals the subsequence of digit characters of the
input, in original order, in both the offer query and the formalization
workflow. -/
theorem C9_cpf_canonicalization (cb : ConsultaIn) (tokR offR : Response)
    (out : ConsultaOut) (body : FormalizarIn) (env : FormEnv) :
    (∀ c ∈ (consulta_ofertas cb tokR offR).2, ∀ v, ("cpf", v) ∈ c.formData →
      v = .str (digits cb.cpf)) ∧
    ((consulta_ofertas cb tokR offR).1 = .ok out → out.cpf = digits cb.cpf) ∧
    (∀ c ∈ (formalizar body env).2, ∀ v, ("cpf", v) ∈ c.formData →
      v = .str (digits body.cpf)) ∧
    (digits cb.cpf).data = cb.cpf.data.filter Char.isDigit :=
  ⟨fun c hc => consulta_trace_cpf cb tokR offR c hc,
   consulta_ok_cpf cb tokR offR out,
   fun c hc => formalizar_trace_cpf body env c hc,
   rfl⟩

/-- Witness for C9: the transmitted and echoed cpf for the input
"123.456.789-09" is "12345678909". -/
theorem C9_witness :
    Json.str "12345678909" = Json.str (digits "123.456.789-09") ∧
    ({ cpf := "12345678909", total_ofertas := 1,
       ofertas := [⟨.str "Refin", .str "Aprovado"⟩] } : ConsultaOut).cpf
      = digits "123.456.789-09" :=
  ⟨(C9_cpf_canonicalization exConsulta tokOK offA
      ⟨"12345678909", 1, [⟨.str "Refin", .str "Aprovado"⟩]⟩ exBody envOK).1
      ⟨.consultaOfertas, [("cpf", .str "12345678909")]⟩
      (List.Mem.tail _ (List.Mem.head _))
      (.str "12345678909") (List.Mem.head _),
   (C9_cpf_canonicalization exConsulta tokOK offA
      ⟨"12345678909", 1, [⟨.str "Refin", .str "Aprovado"⟩]⟩ exBody envOK).2.1
      (by rfl)⟩
